import Mathlib

/-!
Verification development for the Tomato Food Delivery App CI/CD repository.

The repository consists of a Jenkins pipeline definition (`src/Jenkinsfile`)
whose file also carries the Selenium test suite driven by the
`Run Selenium Tests` stage, plus a small vite configuration for the admin
front end (`src/admin/vite.config.js`).

This file gives a shallow embedding of

  * the shell semantics the pipeline relies on (`||true` swallowing,
    POSIX pipeline exit status),
  * the `Wait for Services` readiness-probe loops (lines 79-113),
  * the stage sequencing of the declarative pipeline and its `post`
    blocks (success / failure / always),
  * the Groovy reporting scripts in `post { success { ... } failure { ... } }`
    (readFile with try/catch, the `(\d+) passing` / `(\d+) failing`
    pattern search, the emailext dispatch wrapped in try/catch),
  * the `Checkout Code` stage logic (clone if no `.git`, else pull),
  * the Selenium suite: all ten `describe` groups with every `it` block
    translated over an abstract browser environment `Env` (which element
    lookups succeed, which elements are displayed, element counts and
    texts) and a threaded browser state `St` (the current URL).

Browser interactions are modelled as follows: `findElement` /
`waitForElement` / `waitAndClick` / `waitAndType` succeed or throw
according to a Boolean oracle field of `Env`; an uncaught throw or a
failed `assert.ok` makes the surrounding `it` fail; `try { } catch { }`
turns the throw into the logged note the catch block prints.  Each test
returns an `Outcome` (`passed`, `failed`, or `note` for a completed test
whose body only logged a precondition/skip note) together with the
updated browser state.
-/

namespace Tomato

/-! ## Shell semantics -/

/-- Exit status of `cmd || true`: the failure of `cmd` is swallowed. -/
def orTrue (s : Nat) : Nat := if s = 0 then s else 0

/-- Exit status of a POSIX shell pipeline `a | b` (no pipefail): the status
of the last command only. -/
def shPipe (firstStatus lastStatus : Nat) : Nat := lastStatus

/-! ## Readiness prober (`Wait for Services`, Jenkinsfile lines 79-113) -/

/-- Result of one `until curl ...; do ...; done` polling loop:
whether the endpoint answered, how many `curl` attempts were made, and the
total `sleep` time spent between attempts. -/
structure ProbeResult where
  success : Bool
  attempts : Nat
  sleepTime : Nat
  deriving Repr, DecidableEq

/--
One iteration step of the shell loop

```
until curl -s URL; do
  counter=$((counter + 1))
  if [ $counter -ge $max_retries ]; then exit 1; fi
  sleep $delay
done
```

`ready n` tells whether the `curl` of attempt index `n` (0-based) answers.
`c` is the current value of `counter`; `fuel` is `m - c`, which bounds the
remaining iterations and makes the recursion structural.
-/
def probeAux (ready : Nat → Bool) (d m c fuel : Nat) : ProbeResult :=
  match fuel with
  | 0 => { success := false, attempts := c, sleepTime := 0 }
  | fuel + 1 =>
    if ready c then { success := true, attempts := c + 1, sleepTime := 0 }
    else if m ≤ c + 1 then { success := false, attempts := c + 1, sleepTime := 0 }
    else
      { success := (probeAux ready d m (c + 1) fuel).success
        attempts := (probeAux ready d m (c + 1) fuel).attempts
        sleepTime := d + (probeAux ready d m (c + 1) fuel).sleepTime }

/-- The full polling loop for one endpoint, starting from `counter=0`. -/
def probe (ready : Nat → Bool) (m d : Nat) : ProbeResult :=
  probeAux ready d m 0 m

/-- `max_retries=10` in the `Wait for Services` stage. -/
def maxRetries : Nat := 10

/-- `sleep 10` between attempts in the `Wait for Services` stage. -/
def retryDelay : Nat := 10

/-- The fixed `sleep 30` settle delay at the top of `Wait for Services`. -/
def settleDelay : Nat := 30

/-- The frontend URL curled by the stage. -/
def frontendUrl : String := "http://localhost:5173"

/-- The backend URL curled by the stage. -/
def backendUrl : String := "http://localhost:4000"

/-- The admin panel URL advertised in the success email (never curled). -/
def adminPanelUrl : String := "http://localhost:5174"

/-- `preview.port` from `src/admin/vite.config.js`. -/
def adminPreviewPort : Nat := 5174

/-- The two URLs the `Wait for Services` stage actually curls, in order. -/
def probedUrls : List String := [frontendUrl, backendUrl]

/-- `echo "Frontend service not ready after $max_retries attempts"` before `exit 1`. -/
def frontendFailMsg : String := "Frontend service not ready after 10 attempts"

/-- `echo "Backend service not ready after $max_retries attempts"` before `exit 1`. -/
def backendFailMsg : String := "Backend service not ready after 10 attempts"

/-- Outcome of the whole `Wait for Services` shell step. -/
structure WaitResult where
  ok : Bool
  failMsg : Option String
  settleSleep : Nat
  deriving Repr, DecidableEq

/-- Which fatal message, if any, the stage script emits: the frontend loop
runs first and `exit 1`s on exhaustion; only if it succeeds does the
backend loop run. -/
def waitFailMsg (front back : Nat → Bool) : Option String :=
  if (probe front maxRetries retryDelay).success then
    if (probe back maxRetries retryDelay).success then none
    else some backendFailMsg
  else some frontendFailMsg

/-- The `Wait for Services` stage: `sleep 30`, then the two polling loops. -/
def waitForServices (front back : Nat → Bool) : WaitResult :=
  { ok := (waitFailMsg front back).isNone
    failMsg := waitFailMsg front back
    settleSleep := settleDelay }

/-! ## Pipeline stage sequencing -/

/-- External outcomes a single pipeline run is exposed to: exit statuses of
the external tools each stage shells out to, and the readiness oracles for
the two curled services (plus the never-consulted admin service). -/
structure PipelineEnv where
  checkoutOk : Bool := true
  dockerLoginOk : Bool := true
  buildPushOk : Bool := true
  composeDownStatus : Nat := 0
  composePullOk : Bool := true
  composeUpOk : Bool := true
  npmInstallOk : Bool := true
  frontReady : Nat → Bool := fun _ => true
  backReady : Nat → Bool := fun _ => true
  adminReady : Nat → Bool := fun _ => true
  npmTestStatus : Nat := 0
  teeStatus : Nat := 0
  pruneStatus : Nat := 0

/-- `Deploy with Docker Compose`: `docker compose down || true` (swallowed),
then `pull`, then `up -d --remove-orphans`; under `sh -e`, the stage fails
iff pull or up fails. -/
def deployOk (env : PipelineEnv) : Bool :=
  (orTrue env.composeDownStatus == 0) && env.composePullOk && env.composeUpOk

/-- The `Wait for Services` stage succeeds iff neither loop exhausted. -/
def waitStageOk (env : PipelineEnv) : Bool :=
  (waitForServices env.frontReady env.backReady).ok

/-- All stages strictly before `Run Selenium Tests` succeed, except the
readiness gate which is tracked separately. -/
def preVerifOk (env : PipelineEnv) : Bool :=
  env.checkoutOk && env.dockerLoginOk && env.buildPushOk && deployOk env && env.npmInstallOk

/-- Whether the `Run Selenium Tests` stage is reached at all: in a
declarative pipeline a stage runs only if every earlier stage succeeded. -/
def verificationRan (env : PipelineEnv) : Bool :=
  preVerifOk env && waitStageOk env

/-- Overall pipeline success: every stage succeeded.  The test stage's own
exit status is that of `npm test 2>&1 | tee test-results.log`, i.e. the
`tee` status (POSIX pipeline, no pipefail). -/
def pipelineOk (env : PipelineEnv) : Bool :=
  verificationRan env && (shPipe env.npmTestStatus env.teeStatus == 0)

/-- `emailext(...)` dispatch: succeeds or throws (e.g. SMTP unconfigured). -/
def sendEmail (dispatchOk : Bool) : Except String Unit :=
  if dispatchOk then Except.ok () else Except.error "Could not send email notification"

/-- The `try { emailext(...) } catch (Exception e) { echo ... }` wrapper:
the post block completes normally whatever the dispatch outcome. -/
def postBlockCompletes (dispatchOk : Bool) : Bool :=
  match sendEmail dispatchOk with
  | Except.ok _ => true
  | Except.error _ => true

/-- Terminal status after the `post` section: the `always` cleanup is
`docker system prune -f || true` and the email dispatch is caught, so the
build result computed by the stages is not altered. -/
def pipelineFinalOk (env : PipelineEnv) (dispatchOk : Bool) : Bool :=
  pipelineOk env && (orTrue env.pruneStatus == 0) && postBlockCompletes dispatchOk

/-! ## Outcome reporter (`post { success { ... } failure { ... } }`) -/

/-- The placeholder installed when `readFile('tests/test-results.log')` throws. -/
def placeholderLog : String := "Test log not available"

/-- `try { testLog = readFile(...) } catch (Exception e) { testLog = ... }`. -/
def logTextOf (logOpt : Option String) : String :=
  match logOpt with
  | some t => t
  | none => placeholderLog

/-- Value of a digit run, most significant first. -/
def digitsToNat (ds : List Char) : Nat :=
  ds.foldl (fun n c => n * 10 + (c.toNat - 48)) 0

/-- `p` is a prefix of the character list. -/
def isPrefixL : List Char → List Char → Bool
  | [], _ => true
  | _ :: _, [] => false
  | p :: ps, c :: cs => p == c && isPrefixL ps cs

/-- Leftmost match of the Groovy regex `(\d+)` followed by the literal
`pat` (here `" passing"` or `" failing"`), returning the captured number.
At each scan position starting with a digit, the greedy digit run is taken
and `pat` must follow; since `pat` starts with a non-digit, greedy matching
without backtracking coincides with the regex semantics. -/
def findCount (pat : List Char) : List Char → Option Nat
  | [] => none
  | c :: cs =>
    if c.isDigit && isPrefixL pat (List.dropWhile Char.isDigit (c :: cs)) then
      some (digitsToNat (List.takeWhile Char.isDigit (c :: cs)))
    else findCount pat cs

/-- The tail of the pattern `(\d+) passing`. -/
def passingPat : List Char := (" passing" : String).data

/-- The tail of the pattern `(\d+) failing`. -/
def failingPat : List Char := (" failing" : String).data

/-- The Groovy pattern-search with its `'0'` default: `passingTests`
and `failingTests` stay `'0'` when the regex does not match. -/
def extractCount (pat : List Char) (s : String) : Nat :=
  (findCount pat s.data).getD 0

/-- Which of the two email templates a notification instantiates. -/
inductive NotifKind
  | successMail
  | failureMail
  deriving Repr, DecidableEq

/-- The data interpolated into an email body: which template, the derived
counts when the template carries them, the log text (placeholder allowed),
and the environment links listed in the body. -/
structure Payload where
  kind : NotifKind
  counts : Option (Nat × Nat)
  testLog : String
  envLinks : List String
  deriving Repr, DecidableEq

/-- The Deployment Status links in the success email body. -/
def successEnvLinks : List String := [frontendUrl, backendUrl, adminPanelUrl]

/-- The `post { success { script { ... } } }` reporter: read the log with a
catch-all fallback, pattern-search both counts (defaulting to zero),
assemble the success email. -/
def successPayload (logOpt : Option String) : Payload :=
  let t := logTextOf logOpt
  { kind := NotifKind.successMail
    counts := some (extractCount passingPat t, extractCount failingPat t)
    testLog := t
    envLinks := successEnvLinks }

/-- The `post { failure { script { ... } } }` reporter: read the log with a
catch-all fallback and embed it verbatim; no counts are extracted by this
script. -/
def failurePayload (logOpt : Option String) : Payload :=
  { kind := NotifKind.failureMail
    counts := none
    testLog := logTextOf logOpt
    envLinks := [] }

/-- The notifications attempted for a terminal build status: the `success`
block fires exactly on success, the `failure` block exactly on failure. -/
def postNotifications (succeeded : Bool) (logOpt : Option String) : List Payload :=
  if succeeded then [successPayload logOpt] else [failurePayload logOpt]

/-! ## Checkout stage (`Checkout Code`, Jenkinsfile lines 17-28) -/

/-- `git clone URL .` succeeds into a workspace with no checkout and fails
when run on top of an existing one; cloning materialises the remote head. -/
def gitCloneInto {α : Type} (remote : α) (ws : Option α) : Except String α :=
  match ws with
  | none => Except.ok remote
  | some _ => Except.error "destination path already exists and is not an empty directory"

/-- `git pull origin main` in a pipeline workspace that only ever tracks
`origin/main` (no local commits): a fast-forward to the remote head. -/
def gitPullMain {α : Type} (remote : α) (localState : α) : α := remote

/-- The `Checkout Code` stage script:
`if [ ! -d ".git" ]; then git clone ... .; else git pull origin main; fi`. -/
def checkoutStage {α : Type} (remote : α) (ws : Option α) : Except String (Option α) :=
  match ws with
  | none => (gitCloneInto remote none).map some
  | some l => Except.ok (some (gitPullMain remote l))

/-! ## Selenium test suite (embedded after the pipeline in `src/Jenkinsfile`) -/

/-- `BASE_URL = process.env.BASE_URL || 'http://localhost:5173'` with the
default in force. -/
def BASE_URL : String := "http://localhost:5173"

/-- `BASE_URL + '/cart'`. -/
def cartPageUrl : String := BASE_URL ++ "/cart"

/-- `BASE_URL + '/order'`. -/
def orderPageUrl : String := BASE_URL ++ "/order"

/-- `TEST_USER.name`. -/
def testUserName : String := "Test User"

/-- `TEST_USER.email`: `testuser${Date.now()}@test.com`. -/
def testUserEmail (timestamp : Nat) : String :=
  "testuser" ++ toString timestamp ++ "@test.com"

/-- `TEST_USER.password`. -/
def testUserPassword : String := "Test@123456"

/-- `pat` occurs as a contiguous substring: JavaScript `s.includes(pat)`. -/
def containsSub (pat : List Char) : List Char → Bool
  | [] => isPrefixL pat []
  | c :: cs => isPrefixL pat (c :: cs) || containsSub pat cs

/-- JavaScript `s.includes(pat)` on strings. -/
def strIncludes (s pat : String) : Bool := containsSub pat.data s.data

/-- Outcome of one `it` block: `passed` (reached its end, assertions held),
`failed` (an uncaught throw or failed assertion), or `note` (completed
because a catch block or precondition branch only logged a skip note). -/
inductive Outcome
  | passed
  | failed
  | note
  deriving Repr, DecidableEq

/-- Browser state threaded through the sequential suite: the current URL. -/
structure St where
  url : String
  deriving Repr, DecidableEq

/-- Initial state before the first `driver.get`. -/
def stInit : St := { url := "" }

/--
Abstract browser-session oracle for one verification run: for each element
the suite looks up, whether the lookup succeeds (`...Present`, or
`...Clickable` for `waitAndClick` targets, also covering the visible and
enabled waits; `...Typeable` likewise for `waitAndType` targets), whether
`isDisplayed()` returns true, counts returned by `findElements`, element
texts, and whether in-app navigations triggered by clicks take effect.
Fields default to a healthy application so that concrete runs can be
written as small record updates.
-/
structure Env where
  -- Test Case 1
  navbarPresent : Bool := true
  logoPresent : Bool := true
  logoDisplayed : Bool := true
  navbarMenuPresent : Bool := true
  navbarMenuDisplayed : Bool := true
  navMenuLinkCount : Nat := 4
  headerPresent : Bool := true
  headerDisplayed : Bool := true
  -- auth popup (Test Cases 2 and 3)
  signInClickable : Bool := true
  loginPopupPresent : Bool := true
  loginPopupDisplayed : Bool := true
  popupHeadingPresent : Bool := true
  popupHeadingText : String := "Sign Up"
  switchSpanClickable : Bool := true
  nameInputTypeable : Bool := true
  emailInputTypeable : Bool := true
  passwordInputTypeable : Bool := true
  termsCheckboxPresent : Bool := true
  termsCheckboxSelected : Bool := false
  submitBtnClickable : Bool := true
  -- authenticated-session indicator and its dropdown
  profilePresent : Bool := true
  profileDisplayed : Bool := true
  dropdownPresent : Bool := true
  dropdownDisplayed : Bool := true
  logoutBtnPresent : Bool := true
  signInBtnPresent : Bool := true
  signInBtnText : String := "sign in"
  -- menu section (Test Case 4)
  exploreMenuPresent : Bool := true
  exploreMenuDisplayed : Bool := true
  categoryCount : Nat := 1
  categoryImgPresent : Bool := true
  -- food display and cart controls (Test Cases 5, 6, 7)
  foodDisplayPresent : Bool := true
  foodItemCount : Nat := 1
  addBtnPresent : Bool := true
  counterPresent : Bool := true
  counterDisplayed : Bool := true
  counterPPresent : Bool := true
  counterQty : Nat := 1
  removeBtnPresent : Bool := true
  altAddBtnCount : Nat := 1
  cartDotPresent : Bool := true
  cartDotDisplayed : Bool := true
  cartIconPresent : Bool := true
  cartIconNavigates : Bool := true
  cartPresent : Bool := true
  cartDisplayed : Bool := true
  cartTotalPresent : Bool := true
  cartTotalDisplayed : Bool := true
  promoPresent : Bool := true
  promoDisplayed : Bool := true
  promoInputPresent : Bool := true
  promoInputDisplayed : Bool := true
  -- checkout and order page (Test Case 8)
  checkoutBtnPresent : Bool := true
  checkoutBtnDisplayed : Bool := true
  checkoutNavigates : Bool := true
  placeOrderLeftPresent : Bool := true
  placeOrderLeftDisplayed : Bool := true
  firstNameInputPresent : Bool := true
  firstNameInputDisplayed : Bool := true
  orderEmailInputPresent : Bool := true
  orderEmailInputDisplayed : Bool := true
  -- footer (Test Case 10)
  footerPresent : Bool := true
  footerDisplayed : Bool := true
  appDownloadPresent : Bool := true
  appDownloadDisplayed : Bool := true
  menuLinkPresent : Bool := true
  contactLinkPresent : Bool := true
  contactLinkDisplayed : Bool := true
  searchIconPresent : Bool := true
  searchIconDisplayed : Bool := true

/-- Test Case 1, `should load the homepage successfully`. -/
def tc1_1 (e : Env) (s : St) : Outcome × St :=
  let s := { s with url := BASE_URL }
  if !e.navbarPresent then (Outcome.failed, s)
  else if !e.logoPresent then (Outcome.failed, s)
  else if !e.logoDisplayed then (Outcome.failed, s)
  else (Outcome.passed, s)

/-- Test Case 1, `should display navigation menu items`. -/
def tc1_2 (e : Env) (s : St) : Outcome × St :=
  if !e.navbarMenuPresent then (Outcome.failed, s)
  else if !e.navbarMenuDisplayed then (Outcome.failed, s)
  else if e.navMenuLinkCount < 4 then (Outcome.failed, s)
  else (Outcome.passed, s)

/-- Test Case 1, `should display the header section`. -/
def tc1_3 (e : Env) (s : St) : Outcome × St :=
  if !e.headerPresent then (Outcome.failed, s)
  else if !e.headerDisplayed then (Outcome.failed, s)
  else (Outcome.passed, s)

/-- Test Case 2, `should open sign in popup when clicking sign in button`. -/
def tc2_1 (e : Env) (s : St) : Outcome × St :=
  let s := { s with url := BASE_URL }
  if !e.signInClickable then (Outcome.failed, s)
  else if !e.loginPopupPresent then (Outcome.failed, s)
  else if !e.loginPopupDisplayed then (Outcome.failed, s)
  else (Outcome.passed, s)

/-- Test Case 2, `should register a new user successfully`: fill the sign-up
form (switching mode when the heading reads `Login`), tick the terms
checkbox if needed, submit, then check for the profile icon inside a
try/catch whose catch only logs a note (the identity may already exist). -/
def tc2_2 (e : Env) (s : St) : Outcome × St :=
  if !e.popupHeadingPresent then (Outcome.failed, s)
  else if e.popupHeadingText == "Login" && !e.switchSpanClickable then (Outcome.failed, s)
  else if !e.nameInputTypeable then (Outcome.failed, s)
  else if !e.emailInputTypeable then (Outcome.failed, s)
  else if !e.passwordInputTypeable then (Outcome.failed, s)
  else if !e.termsCheckboxPresent then (Outcome.failed, s)
  else if !e.submitBtnClickable then (Outcome.failed, s)
  else if e.profilePresent && e.profileDisplayed then (Outcome.passed, s)
  else (Outcome.note, s)

/-- Test Case 3, `should logout first if logged in`: the whole body is one
try/catch that swallows every lookup failure, so the test always passes. -/
def tc3_1 (e : Env) (s : St) : Outcome × St :=
  let s := { s with url := BASE_URL }
  if e.profilePresent then
    if e.profileDisplayed then
      if e.logoutBtnPresent then (Outcome.passed, s) else (Outcome.passed, s)
    else (Outcome.passed, s)
  else (Outcome.passed, s)

/-- Test Case 3, `should login with valid credentials`: auth-overlay flow in
login mode; no assertion after submit, so it fails only on a missing form
element. -/
def tc3_2 (e : Env) (s : St) : Outcome × St :=
  let s := { s with url := BASE_URL }
  if !e.signInClickable then (Outcome.failed, s)
  else if !e.loginPopupPresent then (Outcome.failed, s)
  else if !e.popupHeadingPresent then (Outcome.failed, s)
  else if e.popupHeadingText == "Sign Up" && !e.switchSpanClickable then (Outcome.failed, s)
  else if !e.emailInputTypeable then (Outcome.failed, s)
  else if !e.passwordInputTypeable then (Outcome.failed, s)
  else if !e.termsCheckboxPresent then (Outcome.failed, s)
  else if !e.submitBtnClickable then (Outcome.failed, s)
  else (Outcome.passed, s)

/-- Test Case 4, `should display explore menu section`. -/
def tc4_1 (e : Env) (s : St) : Outcome × St :=
  let s := { s with url := BASE_URL }
  if !e.exploreMenuPresent then (Outcome.failed, s)
  else if !e.exploreMenuDisplayed then (Outcome.failed, s)
  else (Outcome.passed, s)

/-- Test Case 4, `should display menu categories`. -/
def tc4_2 (e : Env) (s : St) : Outcome × St :=
  if e.categoryCount = 0 then (Outcome.failed, s) else (Outcome.passed, s)

/-- Test Case 4, `should filter food items by category when clicked`: clicks
the first category and reads the class attribute of its `img`; only the
`img` lookup can throw. -/
def tc4_3 (e : Env) (s : St) : Outcome × St :=
  if 0 < e.categoryCount then
    if !e.categoryImgPresent then (Outcome.failed, s) else (Outcome.passed, s)
  else (Outcome.passed, s)

/-- Test Case 5, `should display food items`. -/
def tc5_1 (e : Env) (s : St) : Outcome × St :=
  let s := { s with url := BASE_URL }
  if !e.foodDisplayPresent then (Outcome.failed, s)
  else if e.foodItemCount = 0 then (Outcome.failed, s)
  else (Outcome.passed, s)

/-- Test Case 5, `should add item to cart when clicking add button`: three
nested fallback tiers, each inside a catch, the last of which cannot throw,
so the test never fails. -/
def tc5_2 (e : Env) (s : St) : Outcome × St :=
  if 0 < e.foodItemCount then
    if e.addBtnPresent && e.counterPresent && e.counterDisplayed then (Outcome.passed, s)
    else if e.counterPresent && e.counterDisplayed then (Outcome.passed, s)
    else if 0 < e.altAddBtnCount then (Outcome.passed, s)
    else (Outcome.passed, s)
  else (Outcome.passed, s)

/-- Test Case 5, `should show dot indicator on cart icon when items are
added`: lookup and assertion wrapped in a catch that logs a note. -/
def tc5_3 (e : Env) (s : St) : Outcome × St :=
  if e.cartDotPresent && e.cartDotDisplayed then (Outcome.passed, s)
  else (Outcome.note, s)

/-- Test Case 6, `should decrease item quantity when clicking remove
button`: the food display wait can fail the test; everything after is under
a catch that logs a note. -/
def tc6_1 (e : Env) (s : St) : Outcome × St :=
  let s := { s with url := BASE_URL }
  if !e.foodDisplayPresent then (Outcome.failed, s)
  else if 0 < e.foodItemCount then
    if e.counterPPresent && e.removeBtnPresent then (Outcome.passed, s)
    else (Outcome.note, s)
  else (Outcome.passed, s)

/-- Test Case 7, `should navigate to cart page`: optional add (its failure
swallowed), then a JavaScript click on the cart icon and a hard assertion
that the URL now contains `/cart`. -/
def tc7_1 (e : Env) (s : St) : Outcome × St :=
  let s := { s with url := BASE_URL }
  if !e.foodDisplayPresent then (Outcome.failed, s)
  else if !e.cartIconPresent then (Outcome.failed, s)
  else
    let s := { s with url := if e.cartIconNavigates then cartPageUrl else BASE_URL }
    if strIncludes s.url "/cart" then (Outcome.passed, s) else (Outcome.failed, s)

/-- Test Case 7, `should display cart items and totals`. -/
def tc7_2 (e : Env) (s : St) : Outcome × St :=
  let s := { s with url := cartPageUrl }
  if !e.cartPresent then (Outcome.failed, s)
  else if !e.cartDisplayed then (Outcome.failed, s)
  else if !e.cartTotalPresent then (Outcome.failed, s)
  else if !e.cartTotalDisplayed then (Outcome.failed, s)
  else (Outcome.passed, s)

/-- Test Case 7, `should display promo code section`. -/
def tc7_3 (e : Env) (s : St) : Outcome × St :=
  if !e.promoPresent then (Outcome.failed, s)
  else if !e.promoDisplayed then (Outcome.failed, s)
  else if !e.promoInputPresent then (Outcome.failed, s)
  else if !e.promoInputDisplayed then (Outcome.failed, s)
  else (Outcome.passed, s)

/-- Test Case 8, `should have proceed to checkout button`: a hard lookup and
assertion with no login precondition and no catch. -/
def tc8_1 (e : Env) (s : St) : Outcome × St :=
  let s := { s with url := cartPageUrl }
  if !e.checkoutBtnPresent then (Outcome.failed, s)
  else if !e.checkoutBtnDisplayed then (Outcome.failed, s)
  else (Outcome.passed, s)

/-- Test Case 8, `should navigate to order page when clicking checkout (if
logged in with items)`: the whole body is a try/catch whose catch logs the
not-logged-in note; the profile lookup throws when the indicator is absent,
and the final URL assertion failure is also caught. -/
def tc8_2 (e : Env) (s : St) : Outcome × St :=
  let s := { s with url := BASE_URL }
  if e.profilePresent then
    if e.profileDisplayed then
      if !e.foodDisplayPresent then (Outcome.note, s)
      else
        let s := { s with url := cartPageUrl }
        if !e.checkoutBtnPresent then (Outcome.note, s)
        else
          let s := { s with url := if e.checkoutNavigates then orderPageUrl else cartPageUrl }
          if strIncludes s.url "/order" then (Outcome.passed, s) else (Outcome.note, s)
    else (Outcome.passed, s)
  else (Outcome.note, s)

/-- Test Case 8, `should display delivery information form on order page`:
runs its hard assertions only when the current URL contains `/order`,
otherwise logs a skip note. -/
def tc8_3 (e : Env) (s : St) : Outcome × St :=
  if strIncludes s.url "/order" then
    if !e.placeOrderLeftPresent then (Outcome.failed, s)
    else if !e.placeOrderLeftDisplayed then (Outcome.failed, s)
    else if !e.firstNameInputPresent then (Outcome.failed, s)
    else if !e.orderEmailInputPresent then (Outcome.failed, s)
    else if !e.firstNameInputDisplayed then (Outcome.failed, s)
    else if !e.orderEmailInputDisplayed then (Outcome.failed, s)
    else (Outcome.passed, s)
  else (Outcome.note, s)

/-- Test Case 9, `should show profile dropdown on hover`: profile lookup
inside a try/catch that logs the not-logged-in note; the dropdown lookup
and assertion are inside the same try. -/
def tc9_1 (e : Env) (s : St) : Outcome × St :=
  let s := { s with url := BASE_URL }
  if e.profilePresent then
    if e.profileDisplayed then
      if !e.dropdownPresent then (Outcome.note, s)
      else if !e.dropdownDisplayed then (Outcome.note, s)
      else (Outcome.passed, s)
    else (Outcome.passed, s)
  else (Outcome.note, s)

/-- Test Case 9, `should logout successfully when clicking logout`: same
try/catch shape; after logout the sign-in button text must contain `sign`. -/
def tc9_2 (e : Env) (s : St) : Outcome × St :=
  let s := { s with url := BASE_URL }
  if e.profilePresent then
    if e.profileDisplayed then
      if !e.logoutBtnPresent then (Outcome.note, s)
      else if !e.signInBtnPresent then (Outcome.note, s)
      else if strIncludes e.signInBtnText.toLower "sign" then (Outcome.passed, s)
      else (Outcome.note, s)
    else (Outcome.passed, s)
  else (Outcome.note, s)

/-- Test Case 10, `should display footer section`. -/
def tc10_1 (e : Env) (s : St) : Outcome × St :=
  let s := { s with url := BASE_URL }
  if !e.footerPresent then (Outcome.failed, s)
  else if !e.footerDisplayed then (Outcome.failed, s)
  else (Outcome.passed, s)

/-- Test Case 10, `should display app download section`. -/
def tc10_2 (e : Env) (s : St) : Outcome × St :=
  if !e.appDownloadPresent then (Outcome.failed, s)
  else if !e.appDownloadDisplayed then (Outcome.failed, s)
  else (Outcome.passed, s)

/-- Test Case 10, `should have working navigation links`: clicks the `menu`
anchor (an in-page scroll) and looks up the explore-menu section. -/
def tc10_3 (e : Env) (s : St) : Outcome × St :=
  let s := { s with url := BASE_URL }
  if !e.menuLinkPresent then (Outcome.failed, s)
  else if !e.exploreMenuPresent then (Outcome.failed, s)
  else (Outcome.passed, s)

/-- Test Case 10, `should have contact us link`. -/
def tc10_4 (e : Env) (s : St) : Outcome × St :=
  let s := { s with url := BASE_URL }
  if !e.contactLinkPresent then (Outcome.failed, s)
  else if !e.contactLinkDisplayed then (Outcome.failed, s)
  else (Outcome.passed, s)

/-- Test Case 10, `should display search icon in navbar`. -/
def tc10_5 (e : Env) (s : St) : Outcome × St :=
  if !e.searchIconPresent then (Outcome.failed, s)
  else if !e.searchIconDisplayed then (Outcome.failed, s)
  else (Outcome.passed, s)

/-- The ten scenario groups, named after the `describe` blocks. -/
inductive ScenarioName
  | homepage
  | registration
  | login
  | menu
  | addToCart
  | removeFromCart
  | cartPage
  | checkout
  | logout
  | footer
  deriving Repr, DecidableEq

/-- The declared scenario order of the spec. -/
def declaredScenarioOrder : List ScenarioName :=
  [ScenarioName.homepage, ScenarioName.registration, ScenarioName.login,
   ScenarioName.menu, ScenarioName.addToCart, ScenarioName.removeFromCart,
   ScenarioName.cartPage, ScenarioName.checkout, ScenarioName.logout,
   ScenarioName.footer]

/-- One `it` block. -/
def SuiteTest : Type := Env → St → Outcome × St

/-- The suite exactly as the `describe` blocks appear in the source file,
top to bottom, each with its `it` blocks in order. -/
def suite : List (ScenarioName × List SuiteTest) :=
  [ (ScenarioName.homepage, [tc1_1, tc1_2, tc1_3]),
    (ScenarioName.registration, [tc2_1, tc2_2]),
    (ScenarioName.login, [tc3_1, tc3_2]),
    (ScenarioName.menu, [tc4_1, tc4_2, tc4_3]),
    (ScenarioName.addToCart, [tc5_1, tc5_2, tc5_3]),
    (ScenarioName.removeFromCart, [tc6_1]),
    (ScenarioName.cartPage, [tc7_1, tc7_2, tc7_3]),
    (ScenarioName.checkout, [tc8_1, tc8_2, tc8_3]),
    (ScenarioName.logout, [tc9_1, tc9_2]),
    (ScenarioName.footer, [tc10_1, tc10_2, tc10_3, tc10_4, tc10_5]) ]

/-- Mocha default runner on one group: tests run sequentially in a shared
browser session; a failing test is recorded and the next test still runs. -/
def runTests (e : Env) : List SuiteTest → St → List Outcome × St
  | [], s => ([], s)
  | t :: ts, s =>
    ((t e s).1 :: (runTests e ts (t e s).2).1, (runTests e ts (t e s).2).2)

/-- Mocha default runner on the group list: groups run sequentially in
declaration order, never in parallel, and no group outcome aborts the rest. -/
def runGroups (e : Env) : List (ScenarioName × List SuiteTest) → St → List (ScenarioName × List Outcome)
  | [], _ => []
  | g :: gs, s =>
    (g.1, (runTests e g.2 s).1) :: runGroups e gs (runTests e g.2 s).2

/-- One verification run: the whole suite against a browser oracle. -/
def runSuite (e : Env) (s : St) : List (ScenarioName × List Outcome) :=
  runGroups e suite s

/-- A run with no authenticated-session indicator and a cart page without
the checkout button. -/
def envNoAuth : Env := { profilePresent := false, checkoutBtnPresent := false }

/-- A fully healthy run. -/
def envHealthy : Env := {}

/-- A pipeline run where every external tool succeeds and both probed
services answer immediately. -/
def envAllGood : PipelineEnv := {}

/-- A pipeline run where neither probed service ever answers. -/
def envFrontDown : PipelineEnv :=
  { frontReady := fun _ => false, backReady := fun _ => false }

/-- A captured Mocha summary fragment with parseable counts. -/
def sampleFailLog : String := "  5 passing (40s)\n  1 failing"

/-! ## Helper lemmas -/

theorem orTrue_eq_zero (s : Nat) : orTrue s = 0 := by
  unfold orTrue
  split <;> simp_all

theorem postBlockCompletes_true (dispatchOk : Bool) : postBlockCompletes dispatchOk = true := by
  cases dispatchOk <;> rfl

theorem probeAux_attempts_le (r : Nat → Bool) (d m : Nat) :
    ∀ fuel c, (probeAux r d m c fuel).attempts ≤ c + fuel := by
  intro fuel
  induction fuel with
  | zero => intro c; simp [probeAux]
  | succ f ih =>
    intro c
    simp only [probeAux]
    split
    · show c + 1 ≤ c + (f + 1)
      omega
    · split
      · show c + 1 ≤ c + (f + 1)
        omega
      · have h := ih (c + 1)
        show (probeAux r d m (c + 1) f).attempts ≤ c + (f + 1)
        omega

theorem probeAux_never (r : Nat → Bool) (h : ∀ n, r n = false) (d m : Nat) :
    ∀ fuel c, c + fuel = m → 0 < fuel →
      probeAux r d m c fuel = { success := false, attempts := m, sleepTime := d * (fuel - 1) } := by
  intro fuel
  induction fuel with
  | zero =>
    intro c _ hf
    exact absurd hf (by omega)
  | succ f ih =>
    intro c hc _
    simp only [probeAux, h c, Bool.false_eq_true, if_false]
    by_cases hm : m ≤ c + 1
    · have hf0 : f = 0 := by omega
      subst hf0
      rw [if_pos hm]
      have hcm : c + 1 = m := by omega
      simp [hcm]
    · rw [if_neg hm]
      have hf : 0 < f := by omega
      rw [ih (c + 1) (by omega) hf]
      have hfe : d + d * (f - 1) = d * f := by
        cases f with
        | zero => exact absurd hf (by omega)
        | succ k =>
          simp [Nat.mul_succ]
          omega
      simp [hfe]

theorem probe_never (r : Nat → Bool) (h : ∀ n, r n = false) :
    probe r maxRetries retryDelay = { success := false, attempts := 10, sleepTime := 90 } := by
  have hp := probeAux_never r h retryDelay maxRetries maxRetries 0 (by simp [maxRetries]) (by simp [maxRetries])
  simpa [probe, maxRetries, retryDelay] using hp

theorem probe_attempts_le (r : Nat → Bool) :
    (probe r maxRetries retryDelay).attempts ≤ 10 := by
  have hp := probeAux_attempts_le r retryDelay maxRetries maxRetries 0
  simpa [probe, maxRetries] using hp

theorem runGroups_map_fst (e : Env) :
    ∀ (gs : List (ScenarioName × List SuiteTest)) (s : St),
      (runGroups e gs s).map Prod.fst = gs.map Prod.fst := by
  intro gs
  induction gs with
  | nil => intro s; rfl
  | cons g gs ih => intro s; simp [runGroups, ih]

theorem runGroups_length (e : Env) :
    ∀ (gs : List (ScenarioName × List SuiteTest)) (s : St),
      (runGroups e gs s).length = gs.length := by
  intro gs
  induction gs with
  | nil => intro s; rfl
  | cons g gs ih => intro s; simp [runGroups, ih]

/-! ## Claim theorems -/

/-- Claim C1: in every run of the `Wait for Services` stage each of the two
declared endpoints gets at most 10 connectivity attempts, the loops use a
10-unit inter-attempt delay after the single 30-unit settle delay (a
never-answering endpoint consumes exactly 10 attempts and 9 × 10 = 90 sleep
units), and exhausting the budget on either endpoint fails the stage with
the message naming that endpoint, so the verification stage never runs. -/
theorem claim1_readiness_budget (env : PipelineEnv) :
    (probe env.frontReady maxRetries retryDelay).attempts ≤ 10 ∧
    (probe env.backReady maxRetries retryDelay).attempts ≤ 10 ∧
    (waitForServices env.frontReady env.backReady).settleSleep = 30 ∧
    ((∀ n, env.frontReady n = false) →
      probe env.frontReady maxRetries retryDelay
        = { success := false, attempts := 10, sleepTime := 90 } ∧
      (waitForServices env.frontReady env.backReady).failMsg = some frontendFailMsg ∧
      verificationRan env = false) ∧
    ((∀ n, env.backReady n = false) →
      verificationRan env = false ∧
      probe env.backReady maxRetries retryDelay
        = { success := false, attempts := 10, sleepTime := 90 } ∧
      ((probe env.frontReady maxRetries retryDelay).success = true →
        (waitForServices env.frontReady env.backReady).failMsg = some backendFailMsg)) := by
  refine ⟨probe_attempts_le env.frontReady, probe_attempts_le env.backReady, rfl, ?_, ?_⟩
  · intro h
    have hp := probe_never env.frontReady h
    refine ⟨hp, ?_, ?_⟩
    · simp [waitForServices, waitFailMsg, hp]
    · simp [verificationRan, waitStageOk, waitForServices, waitFailMsg, hp]
  · intro h
    have hb := probe_never env.backReady h
    refine ⟨?_, hb, ?_⟩
    · cases hfs : (probe env.frontReady maxRetries retryDelay).success <;>
        simp [verificationRan, waitStageOk, waitForServices, waitFailMsg, hfs, hb]
    · intro hs
      simp [waitForServices, waitFailMsg, hs, hb]

/-- Witness for C1 at a run where neither service ever answers. -/
theorem claim1_readiness_budget_witness :
    (waitForServices envFrontDown.frontReady envFrontDown.backReady).failMsg
      = some frontendFailMsg ∧
    verificationRan envFrontDown = false := by
  have h := (claim1_readiness_budget envFrontDown).2.2.2.1 (fun n => rfl)
  exact ⟨h.2.1, h.2.2⟩

/-- Claim C2: every verification run logs exactly the 10 scenario groups in
the fixed declared order [Homepage, Registration, Login, Menu, AddToCart,
RemoveFromCart, CartPage, Checkout, Logout, Footer], with no reordering,
omission, or parallel interleaving (the runner is the sequential fold
`runGroups` over the fixed `suite` list). -/
theorem claim2_scenario_order (e : Env) (s : St) :
    (runSuite e s).map Prod.fst = declaredScenarioOrder ∧ (runSuite e s).length = 10 := by
  constructor
  · rw [runSuite, runGroups_map_fst]
    rfl
  · rw [runSuite, runGroups_length]
    rfl

/-- Claim C3 counterexample: at the failure terminal state, with a readable
log that contains perfectly parseable counts, the failure-path reporter
emits a payload carrying no derived counts at all — so the claim that the
Reporter derives both counts by pattern search for every terminal pipeline
state is false. -/
theorem claim3_counterexample :
    (failurePayload (some sampleFailLog)).counts = none ∧
    extractCount passingPat sampleFailLog = 5 ∧
    extractCount failingPat sampleFailLog = 1 := by
  exact ⟨rfl, by decide, by decide⟩

/-- Claim C3 (amended): the success-path reporter derives its two counts by
pattern search of the captured log for digits before " passing" and
" failing"; on either terminal path the reporter still emits exactly one
notification when the log is unreadable or missing, substituting the fixed
placeholder string (with zero counts on the success path); the reporting
script is total (all readFile and dispatch errors are caught). -/
theorem claim3_reporter_resilience (succeeded : Bool) (logOpt : Option String) (s : String) :
    (postNotifications succeeded logOpt).length = 1 ∧
    (successPayload (some s)).counts
      = some (extractCount passingPat s, extractCount failingPat s) ∧
    (successPayload none).counts = some (0, 0) ∧
    (successPayload none).testLog = placeholderLog ∧
    (failurePayload none).testLog = placeholderLog := by
  refine ⟨?_, rfl, ?_, rfl, rfl⟩
  · cases succeeded <;> rfl
  · decide

/-- Claim C4: exactly one notification is attempted per terminal status,
selected by the status alone (the template kind never depends on the log or
the parsed counts), and a dispatch failure is caught so the terminal status
of the pipeline is unchanged. -/
theorem claim4_single_dispatch (succeeded : Bool) (logOpt logOpt2 : Option String)
    (env : PipelineEnv) (dispatchOk : Bool) :
    (postNotifications succeeded logOpt).length = 1 ∧
    postNotifications true logOpt = [successPayload logOpt] ∧
    postNotifications false logOpt = [failurePayload logOpt] ∧
    (successPayload logOpt).kind = NotifKind.successMail ∧
    (failurePayload logOpt).kind = NotifKind.failureMail ∧
    (postNotifications succeeded logOpt).map Payload.kind
      = (postNotifications succeeded logOpt2).map Payload.kind ∧
    postBlockCompletes dispatchOk = true ∧
    pipelineFinalOk env dispatchOk = pipelineOk env := by
  refine ⟨?_, rfl, rfl, rfl, rfl, ?_, postBlockCompletes_true dispatchOk, ?_⟩
  · cases succeeded <;> rfl
  · cases succeeded <;> rfl
  · simp [pipelineFinalOk, orTrue_eq_zero, postBlockCompletes_true]

/-- Claim C5: with the default `BASE_URL` equal to the probed frontend URL,
an endpoint that never answers exhausts its probe within 100 time units of
inter-attempt delay (actually 90 = 9 × 10), and the stage fails with the
message identifying which of the two services (frontend port 5173, backend
port 4000) did not come up. -/
theorem claim5_probe_deadline :
    BASE_URL = frontendUrl ∧
    ∀ front back : Nat → Bool,
      ((∀ n, front n = false) →
        (probe front maxRetries retryDelay).sleepTime ≤ 100 ∧
        (waitForServices front back).failMsg = some frontendFailMsg) ∧
      ((∀ n, back n = false) →
        (probe back maxRetries retryDelay).sleepTime ≤ 100 ∧
        ((probe front maxRetries retryDelay).success = true →
          (waitForServices front back).failMsg = some backendFailMsg)) := by
  refine ⟨rfl, ?_⟩
  intro front back
  constructor
  · intro h
    have hp := probe_never front h
    constructor
    · rw [hp]
      decide
    · simp [waitForServices, waitFailMsg, hp]
  · intro h
    have hb := probe_never back h
    constructor
    · rw [hb]
      decide
    · intro hs
      simp [waitForServices, waitFailMsg, hs, hb]

/-- Witness for C5: a dead frontend and, separately, a dead backend behind a
live frontend. -/
theorem claim5_probe_deadline_witness :
    (probe (fun _ => false) maxRetries retryDelay).sleepTime ≤ 100 ∧
    (waitForServices (fun _ => false) (fun _ => true)).failMsg = some frontendFailMsg ∧
    (waitForServices (fun _ => true) (fun _ => false)).failMsg = some backendFailMsg := by
  have h1 := (claim5_probe_deadline.2 (fun _ => false) (fun _ => true)).1 (fun n => rfl)
  have h2 := (claim5_probe_deadline.2 (fun _ => true) (fun _ => false)).2 (fun n => rfl)
  exact ⟨h1.1, h1.2, h2.2 rfl⟩

/-- Claim C6 counterexample: in a run with the authenticated-session
indicator absent throughout, the Checkout group can still report a failed
outcome — its first `it` block asserts the checkout button with no login
precondition and no catch — so "Checkout ... reports skipped, never failed,
when the indicator is absent" is false as stated. -/
theorem claim6_counterexample :
    envNoAuth.profilePresent = false ∧
    (runSuite envNoAuth stInit).get? 7
      = some (ScenarioName.checkout, [Outcome.failed, Outcome.note, Outcome.note]) := by
  exact ⟨rfl, rfl⟩

/-- Claim C6 (amended): when the authenticated-session indicator is absent,
the login-gated tests — Checkout navigation, the order-form check that
follows it, and both Logout tests — all end in the logged skip note, never
failed; only the unconditional checkout-button presence check of the
Checkout group can fail without authentication. -/
theorem claim6_skip_not_fail (e : Env) (s s2 s3 : St) (h : e.profilePresent = false) :
    (tc8_2 e s).1 = Outcome.note ∧
    (tc8_3 e (tc8_2 e s).2).1 = Outcome.note ∧
    (tc9_1 e s2).1 = Outcome.note ∧
    (tc9_2 e s3).1 = Outcome.note := by
  have h82 : tc8_2 e s = (Outcome.note, { url := BASE_URL }) := by
    simp [tc8_2, h]
  have hso : strIncludes BASE_URL "/order" = false := by decide
  refine ⟨by simp [h82], ?_, by simp [tc9_1, h], by simp [tc9_2, h]⟩
  rw [h82]
  simp [tc8_3, hso]

/-- Witness for the amended C6 at the concrete unauthenticated run. -/
theorem claim6_skip_not_fail_witness :
    (tc8_2 envNoAuth stInit).1 = Outcome.note ∧ (tc9_2 envNoAuth stInit).1 = Outcome.note := by
  have h := claim6_skip_not_fail envNoAuth stInit stInit stInit rfl
  exact ⟨h.1, h.2.2.2⟩

/-- Claim C7: in any run whose auth overlay exposes the registration form
(heading readable, mode switch clickable when needed, name/email/password
inputs typeable, terms checkbox present, submit clickable — i.e. the form
is submitted with the terms checkbox checked), the Registration test either
logs success exactly when the authenticated-session indicator is found
displayed, or completes with only a logged note; it never fails, and the
suite still runs all 10 scenario groups. -/
theorem claim7_registration_soft (e : Env) (s : St)
    (h1 : e.popupHeadingPresent = true)
    (h2 : (e.popupHeadingText == "Login" && !e.switchSpanClickable) = false)
    (h3 : e.nameInputTypeable = true)
    (h4 : e.emailInputTypeable = true)
    (h5 : e.passwordInputTypeable = true)
    (h6 : e.termsCheckboxPresent = true)
    (h7 : e.submitBtnClickable = true) :
    ((tc2_2 e s).1 = Outcome.passed ∨ (tc2_2 e s).1 = Outcome.note) ∧
    ((tc2_2 e s).1 = Outcome.passed ↔ (e.profilePresent && e.profileDisplayed) = true) ∧
    (runSuite e s).length = 10 ∧
    testUserPassword = "Test@123456" ∧
    testUserEmail 1700000000000 = "testuser1700000000000@test.com" := by
  have hlen : (runSuite e s).length = 10 := by
    rw [runSuite, runGroups_length]
    rfl
  cases hpd : e.profilePresent && e.profileDisplayed with
  | false =>
    have ht : (tc2_2 e s).1 = Outcome.note := by
      simp [tc2_2, h1, h2, h3, h4, h5, h6, h7, hpd]
    refine ⟨Or.inr ht, ?_, hlen, rfl, rfl⟩
    rw [ht]
    simp
  | true =>
    have ht : (tc2_2 e s).1 = Outcome.passed := by
      simp [tc2_2, h1, h2, h3, h4, h5, h6, h7, hpd]
    refine ⟨Or.inl ht, ?_, hlen, rfl, rfl⟩
    rw [ht]
    simp [hpd]

/-- Witness for C7 at the healthy run. -/
theorem claim7_registration_soft_witness :
    ((tc2_2 envHealthy stInit).1 = Outcome.passed ∨ (tc2_2 envHealthy stInit).1 = Outcome.note) ∧
    (runSuite envHealthy stInit).length = 10 := by
  have h := claim7_registration_soft envHealthy stInit rfl (by decide) rfl rfl rfl rfl rfl
  exact ⟨h.1, h.2.2.1⟩

/-- Claim C8: the pipeline succeeds only if every fatal stage succeeded
(checkout, docker login, build and push, compose pull and up, dependency
install, the readiness gate); a non-zero `docker compose down` or post-run
`docker system prune` is swallowed by `|| true` and never changes the
result; and the Selenium stage's status is that of `tee`, so `npm test`
scenario failures alone never fail the pipeline. -/
theorem claim8_exit_status (env : PipelineEnv) :
    (pipelineOk env = true →
      env.checkoutOk = true ∧ env.dockerLoginOk = true ∧ env.buildPushOk = true ∧
      env.composePullOk = true ∧ env.composeUpOk = true ∧ env.npmInstallOk = true ∧
      waitStageOk env = true) ∧
    (∀ d : Nat, pipelineOk { env with composeDownStatus := d } = pipelineOk env) ∧
    (∀ p : Nat, ∀ dOk : Bool,
      pipelineFinalOk { env with pruneStatus := p } dOk = pipelineOk env) ∧
    (∀ t : Nat, env.teeStatus = 0 → pipelineOk { env with npmTestStatus := t } = pipelineOk env) := by
  refine ⟨?_, ?_, ?_, ?_⟩
  · intro h
    simp [pipelineOk, verificationRan, preVerifOk, deployOk, Bool.and_eq_true] at h
    tauto
  · intro d
    simp [pipelineOk, verificationRan, preVerifOk, deployOk, waitStageOk, orTrue_eq_zero]
  · intro p dOk
    simp [pipelineFinalOk, pipelineOk, verificationRan, preVerifOk, deployOk, waitStageOk,
      orTrue_eq_zero, postBlockCompletes_true]
  · intro t h0
    simp [pipelineOk, verificationRan, preVerifOk, deployOk, waitStageOk, shPipe, h0]

/-- Witness for C8: an all-good run with a failing `npm test` (status 7)
masked by `tee`, and a failing prune swallowed in `post { always }`. -/
theorem claim8_exit_status_witness :
    pipelineOk envAllGood = true ∧ envAllGood.checkoutOk = true ∧
    pipelineOk { envAllGood with npmTestStatus := 7 } = pipelineOk envAllGood ∧
    pipelineFinalOk { envAllGood with pruneStatus := 3 } false = pipelineOk envAllGood := by
  have h := claim8_exit_status envAllGood
  have hok : pipelineOk envAllGood = true := by decide
  exact ⟨hok, (h.1 hok).1, h.2.2.2 7 rfl, h.2.2.1 3 false⟩

/-- Claim C9: the `Checkout Code` stage is idempotent — on a workspace that
is already checked out it takes the pull branch (avoiding the clone that
would fail on a non-empty directory), does not fail, and converges to the
same repository state (the remote head) as a fresh-workspace clone. -/
theorem claim9_checkout_idempotent (α : Type) (remote : α) (ws : Option α) :
    checkoutStage remote ws = Except.ok (some remote) ∧
    checkoutStage remote (some remote) = checkoutStage remote none := by
  constructor
  · cases ws <;> rfl
  · rfl

/-- Claim C10: the readiness stage curls exactly the frontend (5173) and
backend (4000) URLs; the admin service, although configured on port 5174
and advertised as an environment link in the success notification, is never
probed, and whether verification runs is independent of admin readiness. -/
theorem claim10_admin_not_probed :
    probedUrls = [frontendUrl, backendUrl] ∧
    probedUrls.contains adminPanelUrl = false ∧
    successEnvLinks.contains adminPanelUrl = true ∧
    (∀ logOpt : Option String, (successPayload logOpt).envLinks = successEnvLinks) ∧
    adminPreviewPort = 5174 ∧
    ∀ (env : PipelineEnv) (f : Nat → Bool),
      verificationRan { env with adminReady := f } = verificationRan env ∧
      waitStageOk { env with adminReady := f } = waitStageOk env := by
  refine ⟨rfl, by decide, by decide, fun logOpt => rfl, rfl, ?_⟩
  intro env f
  exact ⟨rfl, rfl⟩

end Tomato
